import Mathlib

/-!
Verification of the analysis-request pipeline of the family_emotions_app
repository.  The Python source is shallowly embedded: dataclasses become
structures, methods become functions, raised exceptions become `Except`
errors, `datetime.utcnow()` becomes an explicit time argument, and the
Redis / SQL backends become explicit in-memory states threaded through the
operations.  UUIDs are modelled as natural numbers supplied by the caller
(`uuid4()` freshness becomes a hypothesis where it matters).
-/

/-! ## Analysis bounded context (src/domain/analysis) -/

/-- Python `str.strip()`: drop whitespace from both ends. -/
def pyStrip (s : String) : String :=
  ⟨((s.data.dropWhile Char.isWhitespace).reverse.dropWhile
      Char.isWhitespace).reverse⟩

/-- `AnalysisStatus` enum from src/domain/analysis/aggregates. -/
inductive AnalysisStatus
| pending
| processing
| completed
| failed
deriving DecidableEq, Repr

/-- The `.value` string of each `AnalysisStatus` member. -/
def AnalysisStatus.value : AnalysisStatus → String
| .pending => "pending"
| .processing => "processing"
| .completed => "completed"
| .failed => "failed"

/-- `AIRecommendation` dataclass (confidence score as a rational). -/
structure AIRecommendation where
  hidden_meaning : String
  immediate_actions : String
  long_term_recommendations : String
  what_not_to_do : String
  confidence_score : ℚ
deriving DecidableEq, Repr

/-- `AIRecommendation.__post_init__`: confidence must lie in [0, 1];
otherwise construction raises `ValueError`. -/
def AIRecommendation.mkChecked (hm ia lt wn : String) (cs : ℚ) :
    Except String AIRecommendation :=
  if 0 ≤ cs ∧ cs ≤ 1 then
    .ok ⟨hm, ia, lt, wn, cs⟩
  else
    .error "Confidence score must be between 0 and 1"

/-- `SituationDescription.__post_init__`
(src/domain/analysis/value_objects): empty or trimmed-length < 10 is
rejected, raw length > 2000 is rejected; the raw value is kept. -/
def SituationDescription.validate (value : String) : Except String String :=
  if value = "" ∨ (pyStrip value).length < 10 then
    .error "Situation description must be at least 10 characters"
  else if value.length > 2000 then
    .error "Situation description is too long (max 2000 characters)"
  else
    .ok value

/-- Domain events appended by the `Analysis` aggregate. -/
inductive AnalysisEvent
| requested (analysis_id user_id child_id : Nat) (situation : String)
    (timestamp : Nat)
| completedEv (analysis_id user_id : Nat) (timestamp : Nat)
    (confidence_score : ℚ)
deriving DecidableEq, Repr

/-- `Analysis` aggregate root (src/domain/analysis/aggregates).
Timestamps are abstract instants (`Nat`); `_events` is `events`. -/
structure Analysis where
  id : Nat
  user_id : Nat
  child_id : Nat
  situation : String
  status : AnalysisStatus
  recommendation : Option AIRecommendation
  created_at : Nat
  completed_at : Option Nat
  error_message : Option String
  events : List AnalysisEvent
deriving DecidableEq, Repr

/-- `Analysis.create`: builds a `SituationDescription` (which may raise),
produces a PENDING record and appends an `AnalysisRequested` event.  The
fresh `uuid4()` identifier and `utcnow()` instant are explicit inputs. -/
def Analysis.create (user_id child_id : Nat) (situation_text : String)
    (freshId now : Nat) : Except String Analysis :=
  match SituationDescription.validate situation_text with
  | .error m => .error m
  | .ok sit =>
    .ok { id := freshId, user_id := user_id, child_id := child_id
          situation := sit, status := .pending, recommendation := none
          created_at := now, completed_at := none, error_message := none
          events := [.requested freshId user_id child_id situation_text
            now] }

/-- `Analysis.start_processing`: legal only from PENDING. -/
def Analysis.start_processing (a : Analysis) : Except String Analysis :=
  if a.status ≠ AnalysisStatus.pending then
    .error ("Cannot start processing from status " ++ a.status.value)
  else
    .ok { a with status := .processing }

/-- `Analysis.complete`: legal only from PROCESSING; sets the
recommendation and the completion timestamp and appends an
`AnalysisCompleted` event. -/
def Analysis.complete (a : Analysis) (rec : AIRecommendation) (now : Nat) :
    Except String Analysis :=
  if a.status ≠ AnalysisStatus.processing then
    .error ("Cannot complete from status " ++ a.status.value)
  else
    .ok { a with
      status := .completed
      recommendation := some rec
      completed_at := some now
      events := a.events ++
        [.completedEv a.id a.user_id now rec.confidence_score] }

/-- `Analysis.fail`: no guard on the source state — it unconditionally
sets FAILED, stores the message and overwrites the completion
timestamp. -/
def Analysis.fail (a : Analysis) (error_message : String) (now : Nat) :
    Analysis :=
  { a with
    status := .failed
    error_message := some error_message
    completed_at := some now }

/-! ## Situation bounded context (src/domain/aggregates/situation.py) -/

/-- `EmotionalTone` enum from src/domain/value_objects. -/
inductive EmotionalTone
| positive
| neutral
| concerning
| urgent
deriving DecidableEq, Repr

/-- `AnalysisResult` value object from src/domain/value_objects. -/
structure AnalysisResult where
  hidden_meaning : String
  immediate_actions : List String
  long_term_recommendations : List String
  what_not_to_do : List String
  emotional_tone : EmotionalTone
  confidence_score : ℚ
  analyzed_at : Nat
deriving DecidableEq, Repr

/-- `SituationAnalyzed` domain event (src/domain/events). -/
structure SituationAnalyzed where
  aggregate_id : Nat
  situation_id : Nat
  child_id : Nat
  situation_text : String
  emotional_tone : EmotionalTone
  confidence_score : ℚ
deriving DecidableEq, Repr

/-- `Situation` aggregate (src/domain/aggregates/situation.py). -/
structure Situation where
  id : Nat
  user_id : Nat
  child_id : Nat
  description : String
  context : Option String
  analysis_result : Option AnalysisResult
  created_at : Nat
  analyzed_at : Option Nat
  events : List SituationAnalyzed
deriving DecidableEq, Repr

def Situation.MIN_DESCRIPTION_LENGTH : Nat := 10

def Situation.MAX_DESCRIPTION_LENGTH : Nat := 2000

/-- Errors raised by the `Situation` aggregate. -/
inductive SituationErr
| invalidSituation (msg : String)
deriving DecidableEq, Repr

/-- `Situation.create`: validates `len(description)` (the RAW, untrimmed
length) against the 10 / 2000 bounds, then stores `description.strip()`.
The fresh `uuid4()` identifier and `utcnow()` instant are explicit. -/
def Situation.create (user_id child_id : Nat) (description : String)
    (context : Option String) (freshId now : Nat) :
    Except SituationErr Situation :=
  if description.length < Situation.MIN_DESCRIPTION_LENGTH then
    .error (.invalidSituation
      ("Description must be at least " ++
        toString Situation.MIN_DESCRIPTION_LENGTH ++ " characters"))
  else if description.length > Situation.MAX_DESCRIPTION_LENGTH then
    .error (.invalidSituation
      ("Description must not exceed " ++
        toString Situation.MAX_DESCRIPTION_LENGTH ++ " characters"))
  else
    .ok { id := freshId, user_id := user_id, child_id := child_id
          description := pyStrip description, context := context
          analysis_result := none, created_at := now
          analyzed_at := none, events := [] }

/-- `Situation.apply_analysis`: raises `InvalidSituationException` when an
analysis result is already present (the check precedes every mutation);
otherwise sets the result, the `analyzed_at` instant and appends a
`SituationAnalyzed` event. -/
def Situation.apply_analysis (s : Situation) (hidden_meaning : String)
    (immediate_actions long_term_recommendations what_not_to_do : List String)
    (emotional_tone : EmotionalTone) (confidence_score : ℚ) (now : Nat) :
    Except SituationErr Situation :=
  if s.analysis_result.isSome then
    .error (.invalidSituation "Situation already analyzed")
  else
    .ok { s with
      analysis_result := some
        { hidden_meaning := hidden_meaning
          immediate_actions := immediate_actions
          long_term_recommendations := long_term_recommendations
          what_not_to_do := what_not_to_do
          emotional_tone := emotional_tone
          confidence_score := confidence_score
          analyzed_at := now }
      analyzed_at := some now
      events := s.events ++
        [{ aggregate_id := s.id, situation_id := s.id
           child_id := s.child_id, situation_text := s.description
           emotional_tone := emotional_tone
           confidence_score := confidence_score }] }

/-- `Situation.is_analyzed` property. -/
def Situation.is_analyzed (s : Situation) : Bool :=
  s.analysis_result.isSome

/-- Mutation view of `Situation.apply_analysis`: the Python method
mutates the aggregate in place or raises; since the already-analyzed
check precedes every assignment, a raise leaves the object exactly as it
was. -/
def Situation.applyAnalysisRun (s : Situation) (hidden_meaning : String)
    (immediate_actions long_term_recommendations what_not_to_do : List String)
    (emotional_tone : EmotionalTone) (confidence_score : ℚ) (now : Nat) :
    Situation × Option SituationErr :=
  match s.apply_analysis hidden_meaning immediate_actions
      long_term_recommendations what_not_to_do emotional_tone
      confidence_score now with
  | .ok s1 => (s1, none)
  | .error e => (s, some e)

/-! ## Redis rate limiter (src/infrastructure/cache/rate_limiter.py)

The Redis store is a key → (integer value, optional absolute expiry)
association list.  `GET` sees a key only while it is live; `INCR` on an
absent or expired key creates it with value 1 and no TTL; `EXPIRE` sets
the absolute expiry to now + ttl on a live key. -/

structure RedisEntry where
  value : Nat
  expires_at : Option Nat
deriving DecidableEq, Repr

structure RedisState where
  entries : List (String × RedisEntry)
deriving DecidableEq, Repr

/-- Raw entry lookup in a key → entry list. -/
def entryList : List (String × RedisEntry) → String → Option RedisEntry
| [], _ => none
| (k1, e1) :: t, k => if k1 = k then some e1 else entryList t k

/-- Raw replace-or-append on a key → entry list. -/
def setEntryList : List (String × RedisEntry) → String → RedisEntry →
    List (String × RedisEntry)
| [], k, e => [(k, e)]
| (k1, e1) :: t, k, e =>
  if k1 = k then (k1, e) :: t else (k1, e1) :: setEntryList t k e

/-- Raw entry stored under a key, expired or not. -/
def RedisState.entry (st : RedisState) (k : String) : Option RedisEntry :=
  entryList st.entries k

/-- Whether an entry is live (not yet expired) at instant `now`. -/
def RedisEntry.liveAt (e : RedisEntry) (now : Nat) : Bool :=
  match e.expires_at with
  | none => true
  | some t => now < t

/-- Redis `GET`: the integer value, if the key is present and live. -/
def RedisState.redisGet (st : RedisState) (k : String) (now : Nat) :
    Option Nat :=
  match st.entry k with
  | none => none
  | some e => if e.liveAt now then some e.value else none

/-- Replace the entry under `k` (or append it). -/
def RedisState.setEntry (st : RedisState) (k : String) (e : RedisEntry) :
    RedisState :=
  ⟨setEntryList st.entries k e⟩

/-- Redis `INCR`: an absent or expired key restarts at 1 with no TTL; a
live key keeps its expiry and its value is incremented. -/
def RedisState.incr (st : RedisState) (k : String) (now : Nat) :
    RedisState :=
  match st.entry k with
  | none => st.setEntry k ⟨1, none⟩
  | some e =>
    if e.liveAt now then st.setEntry k ⟨e.value + 1, e.expires_at⟩
    else st.setEntry k ⟨1, none⟩

/-- Redis `EXPIRE ttl`: sets the absolute expiry of a live key to
`now + ttl`; a no-op on an absent or expired key. -/
def RedisState.expire (st : RedisState) (k : String) (ttl now : Nat) :
    RedisState :=
  match st.entry k with
  | none => st
  | some e =>
    if e.liveAt now then st.setEntry k ⟨e.value, some (now + ttl)⟩
    else st

/-- The `utcnow()` instant: its ISO calendar date, its `%Y%m%d%H` hour
string, and its position on an absolute seconds axis (used for TTLs). -/
structure UtcTime where
  dateIso : String
  ymdh : String
  epoch : Nat
deriving DecidableEq, Repr

/-- Key `rate_limit:daily:{user}:{date}` (f-string spelled with `++`). -/
def daily_key (user dateIso : String) : String :=
  "rate_limit:daily:" ++ user ++ ":" ++ dateIso

/-- Key `rate_limit:hourly:{user}:{YYYYMMDDHH}`. -/
def hourly_key (user ymdh : String) : String :=
  "rate_limit:hourly:" ++ user ++ ":" ++ ymdh

/-- Daily and hourly ceilings from settings. -/
structure Limits where
  daily : Int
  hourly : Int
deriving DecidableEq, Repr

/-- `RedisRateLimiter.check_limit`: reads both counters; a present
counter at or above its ceiling denies the request.  (In Python the
fetched string is truthy whenever the key exists, `"0"` included.) -/
def RedisRateLimiter.check_limit (st : RedisState) (lim : Limits)
    (user : String) (now : UtcTime) : Bool :=
  let daily_count := st.redisGet (daily_key user now.dateIso) now.epoch
  match daily_count with
  | some c =>
    if (c : Int) ≥ lim.daily then false
    else
      match st.redisGet (hourly_key user now.ymdh) now.epoch with
      | some h => ¬((h : Int) ≥ lim.hourly)
      | none => true
  | none =>
    match st.redisGet (hourly_key user now.ymdh) now.epoch with
    | some h => ¬((h : Int) ≥ lim.hourly)
    | none => true

/-- `RedisRateLimiter.increment_usage`: `INCR` then `EXPIRE 24h` on the
daily key, `INCR` then `EXPIRE 1h` on the hourly key — the `EXPIRE`
runs on every call, not only on the first write of a key. -/
def RedisRateLimiter.increment_usage (st : RedisState) (user : String)
    (now : UtcTime) : RedisState :=
  let dk := daily_key user now.dateIso
  let st1 := (st.incr dk now.epoch).expire dk 86400 now.epoch
  let hk := hourly_key user now.ymdh
  ((st1.incr hk now.epoch).expire hk 3600 now.epoch)

/-- Result of `get_remaining_requests`. -/
structure RemainingInfo where
  daily_remaining : Int
  hourly_remaining : Int
  daily_limit : Int
  hourly_limit : Int
deriving DecidableEq, Repr

/-- `RedisRateLimiter.get_remaining_requests`: reads both counters
(absent key counts as 0) and clamps `limit - used` at 0. -/
def RedisRateLimiter.get_remaining_requests (st : RedisState)
    (lim : Limits) (user : String) (now : UtcTime) : RemainingInfo :=
  let daily_used : Int :=
    match st.redisGet (daily_key user now.dateIso) now.epoch with
    | some c => (c : Int)
    | none => 0
  let hourly_used : Int :=
    match st.redisGet (hourly_key user now.ymdh) now.epoch with
    | some c => (c : Int)
    | none => 0
  { daily_remaining := max 0 (lim.daily - daily_used)
    hourly_remaining := max 0 (lim.hourly - hourly_used)
    daily_limit := lim.daily
    hourly_limit := lim.hourly }

/-! ## Claude adapter (src/infrastructure/claude/adapter.py)

`_parse_response` works on the JSON object decoded by `json.loads` from
the first-`\x7b`-to-last-`\x7d` slice of the raw text; here that decoded
object (or `none`, when extraction or decoding fails) is the input. -/

/-- A decoded JSON value, restricted to the shapes the adapter handles. -/
inductive JVal
| str (s : String)
| arr (xs : List String)
| num (q : ℚ)
deriving DecidableEq, Repr

/-- A decoded JSON object (Python dict) as a key → value list. -/
abbrev JObj := List (String × JVal)

/-- Dict lookup `d[k]` (first binding wins, as in a Python dict where
keys are unique). -/
def jget : JObj → String → Option JVal
| [], _ => none
| (k1, v1) :: t, k => if k1 = k then some v1 else jget t k

/-- Dict membership `k in d`. -/
def jhas (o : JObj) (k : String) : Bool :=
  (jget o k).isSome

/-- Dict assignment `d[k] = v`: replaces in place, appends when new. -/
def jset : JObj → String → JVal → JObj
| [], k, v => [(k, v)]
| (k1, v1) :: t, k, v =>
  if k1 = k then (k1, v) :: t else (k1, v1) :: jset t k v

/-- The five keys `_parse_response` requires. -/
def required_fields : List String :=
  ["hidden_meaning", "immediate_actions", "long_term_recommendations",
   "what_not_to_do", "emotional_tone"]

/-- The fixed enum of accepted emotional tones. -/
def valid_tones : List String :=
  ["positive", "neutral", "concerning", "urgent"]

/-- The fixed fallback dict `_parse_response` returns when extraction,
decoding or the required-field check fails. -/
def fallback_response : JObj :=
  [("hidden_meaning", .str "Ребенок выражает свои эмоции и потребности через поведение. Важно понять, что стоит за этим поведением."),
   ("immediate_actions", .arr
     ["Спокойно поговорите с ребенком о его чувствах",
      "Проявите эмпатию и понимание",
      "Установите четкие, но добрые границы"]),
   ("long_term_recommendations", .arr
     ["Развивайте эмоциональный интеллект ребенка",
      "Создайте безопасную среду для выражения чувств",
      "Будьте последовательны в своих реакциях"]),
   ("what_not_to_do", .arr
     ["Не игнорируйте чувства ребенка",
      "Не применяйте физические наказания"]),
   ("emotional_tone", .str "neutral"),
   ("confidence_score", .num (1/2))]

/-- `ClaudeAdapter._parse_response`: any failure up to and including the
required-field check falls into the `except` branch and yields the
fallback dict; then `confidence_score` defaults to 0.8 when absent and
an `emotional_tone` outside `valid_tones` is coerced to `"neutral"`. -/
def ClaudeAdapter.parse_response (extracted : Option JObj) : JObj :=
  match extracted with
  | none => fallback_response
  | some result =>
    if required_fields.all (fun f => jhas result f) then
      let result :=
        if jhas result "confidence_score" then result
        else jset result "confidence_score" (.num (8/10))
      let result :=
        match jget result "emotional_tone" with
        | some (.str t) =>
          if t ∈ valid_tones then result
          else jset result "emotional_tone" (.str "neutral")
        | _ => jset result "emotional_tone" (.str "neutral")
      result
    else fallback_response

/-- Outcome of one loop iteration of `ClaudeAdapter.analyze_situation`:
the awaited call times out, raises some other exception, or returns a
response whose parse is `p`. -/
inductive AttemptOutcome
| timeout
| failure (msg : String)
| success (p : JObj)

/-- Typed errors escaping the retry loop. -/
inductive AdapterErr
| timeout
| failure (msg : String)
deriving DecidableEq, Repr

/-- Observable outcome of the retry loop: the returned dict or the
re-raised error (`none` when `range(retry_attempts)` is empty and the
function falls through), how many attempts ran, and the backoff sleeps
performed, in order. -/
structure AdapterRun where
  result : Option (Except AdapterErr JObj)
  calls : Nat
  sleeps : List Nat
deriving Repr

/-- The `for attempt in range(retry_attempts)` loop, unrolled on the
remaining iteration count: a timeout re-raises on the last attempt and
otherwise retries immediately; any other exception re-raises on the last
attempt and otherwise sleeps `2 ** attempt` before retrying. -/
def analyzeLoop (outcomes : Nat → AttemptOutcome) (retry_attempts : Nat) :
    Nat → Nat → AdapterRun
| _, 0 => ⟨none, 0, []⟩
| attempt, remaining + 1 =>
  match outcomes attempt with
  | .success p => ⟨some (.ok p), 1, []⟩
  | .timeout =>
    if attempt = retry_attempts - 1 then ⟨some (.error .timeout), 1, []⟩
    else
      let r := analyzeLoop outcomes retry_attempts (attempt + 1) remaining
      ⟨r.result, r.calls + 1, r.sleeps⟩
  | .failure m =>
    if attempt = retry_attempts - 1 then
      ⟨some (.error (.failure m)), 1, []⟩
    else
      let r := analyzeLoop outcomes retry_attempts (attempt + 1) remaining
      ⟨r.result, r.calls + 1, 2 ^ attempt :: r.sleeps⟩

/-- `ClaudeAdapter.analyze_situation`, driven by the sequence of
per-attempt outcomes of the awaited Claude call. -/
def ClaudeAdapter.analyze_situation (outcomes : Nat → AttemptOutcome)
    (retry_attempts : Nat) : AdapterRun :=
  analyzeLoop outcomes retry_attempts 0 retry_attempts

/-! ## SQL analysis repository
(src/infrastructure/persistence/analysis_repository.py) -/

/-- One row of the `AnalysisModel` table. -/
structure AnalysisModel where
  id : Nat
  user_id : Nat
  child_id : Nat
  situation_description : String
  status : String
  created_at : Nat
  completed_at : Option Nat
  error_message : Option String
  hidden_meaning : Option String
  immediate_actions : Option String
  long_term_recommendations : Option String
  what_not_to_do : Option String
  confidence_score : Option ℚ
deriving DecidableEq, Repr

/-- `SELECT ... WHERE id = i` with `scalar_one_or_none`. -/
def dbFind (db : List AnalysisModel) (i : Nat) : Option AnalysisModel :=
  db.find? (fun m => m.id = i)

/-- The in-place update branch of `save`: status, completion timestamp
and error message always; the recommendation columns only when the
aggregate carries a recommendation. -/
def updateRow (m : AnalysisModel) (a : Analysis) : AnalysisModel :=
  let m := { m with
    status := a.status.value
    completed_at := a.completed_at
    error_message := a.error_message }
  match a.recommendation with
  | some r =>
    { m with
      hidden_meaning := some r.hidden_meaning
      immediate_actions := some r.immediate_actions
      long_term_recommendations := some r.long_term_recommendations
      what_not_to_do := some r.what_not_to_do
      confidence_score := some r.confidence_score }
  | none => m

/-- The insert branch of `save`: a fresh row from every aggregate field,
the recommendation columns filled only when present. -/
def newRow (a : Analysis) : AnalysisModel :=
  let m : AnalysisModel :=
    { id := a.id, user_id := a.user_id, child_id := a.child_id
      situation_description := a.situation
      status := a.status.value
      created_at := a.created_at
      completed_at := a.completed_at
      error_message := a.error_message
      hidden_meaning := none, immediate_actions := none
      long_term_recommendations := none, what_not_to_do := none
      confidence_score := none }
  match a.recommendation with
  | some r =>
    { m with
      hidden_meaning := some r.hidden_meaning
      immediate_actions := some r.immediate_actions
      long_term_recommendations := some r.long_term_recommendations
      what_not_to_do := some r.what_not_to_do
      confidence_score := some r.confidence_score }
  | none => m

/-- `SqlAlchemyAnalysisRepository.save`: update the row with the
aggregate's identifier when it exists, insert a fresh row otherwise. -/
def SqlAlchemyAnalysisRepository.save (db : List AnalysisModel)
    (a : Analysis) : List AnalysisModel :=
  if (db.find? (fun m => m.id = a.id)).isSome then
    db.map (fun m => if m.id = a.id then updateRow m a else m)
  else
    db ++ [newRow a]

/-! ## Analysis orchestrator -/

/-- Shared mutable world: the SQL analysis store and the Redis counter
store. -/
structure World where
  store : List AnalysisModel
  redis : RedisState
deriving Repr

/-- Typed errors raised by `requestAnalysis` (§7 taxonomy). -/
inductive OrchError
| quotaExceeded
| invalidSituation (msg : String)
| illegalStateTransition (msg : String)
| analysisFailed (cause : String)
deriving DecidableEq, Repr

/-- Modelled from the spec: `AnalysisOrchestrator.requestAnalysis`
(§4.5).  The orchestrating `AnalysisService.request_analysis` wired with
an analysis repository, an AI analyzer and a rate limiter is only called
(src/presentation/telegram/handlers/analysis.py) — its implementation is
not in the repository, so the six spec steps are modelled here over the
source-embedded collaborators: `RedisRateLimiter.check_limit`, the
`Analysis` aggregate transitions, `SqlAlchemyAnalysisRepository.save`
and `RedisRateLimiter.increment_usage`.  The gateway call is abstracted
by its outcome `gw` (a recommendation, or the message of the error that
exhausted the gateway's retries).  Steps: quota check (no record on
denial) → create and persist Pending → start processing and persist →
gateway; on success complete, persist, then charge usage; on gateway
failure mark failed, persist, and re-raise `AnalysisFailed` with the
underlying cause. -/
def requestAnalysis (w : World) (lim : Limits) (user_id child_id : Nat)
    (situation_text : String) (gw : Except String AIRecommendation)
    (freshId : Nat) (now : UtcTime) :
    World × Except OrchError Analysis :=
  if RedisRateLimiter.check_limit w.redis lim (toString user_id) now then
    match Analysis.create user_id child_id situation_text freshId
        now.epoch with
    | .error m => (w, .error (.invalidSituation m))
    | .ok a =>
      let w1 : World :=
        { w with store := SqlAlchemyAnalysisRepository.save w.store a }
      match a.start_processing with
      | .error m => (w1, .error (.illegalStateTransition m))
      | .ok a1 =>
        let w2 : World :=
          { w1 with
            store := SqlAlchemyAnalysisRepository.save w1.store a1 }
        match gw with
        | .ok rec =>
          match a1.complete rec now.epoch with
          | .error m => (w2, .error (.illegalStateTransition m))
          | .ok a2 =>
            let w3 : World :=
              { w2 with
                store := SqlAlchemyAnalysisRepository.save w2.store a2 }
            let w4 : World :=
              { w3 with
                redis := RedisRateLimiter.increment_usage w3.redis
                  (toString user_id) now }
            (w4, .ok a2)
        | .error cause =>
          let a2 := a1.fail cause now.epoch
          let w3 : World :=
            { w2 with
              store := SqlAlchemyAnalysisRepository.save w2.store a2 }
          (w3, .error (.analysisFailed cause))
  else
    (w, .error .quotaExceeded)

/-! ## Verified properties -/

/-- A concrete analyzed situation, used to instantiate theorems about
`apply_analysis`. -/
def sampleResult : AnalysisResult :=
  { hidden_meaning := "m", immediate_actions := ["a"]
    long_term_recommendations := ["l"], what_not_to_do := ["w"]
    emotional_tone := .neutral, confidence_score := 4/5
    analyzed_at := 7 }

def sampleAnalyzed : Situation :=
  { id := 1, user_id := 2, child_id := 3
    description := "a plainly long enough description"
    context := none, analysis_result := some sampleResult
    created_at := 5, analyzed_at := some 7, events := [] }

/-- C9: `Situation.apply_analysis` succeeds at most once.  When an
analysis result is already present the call raises
`InvalidSituationException` and the aggregate — its analysis result, its
`analyzed_at` instant and its accumulated events — is unchanged; in
particular a second application right after a successful one is always
rejected this way. -/
theorem C9_apply_analysis_at_most_once :
    (∀ (s : Situation) (r : AnalysisResult) (hm : String)
      (ia lt wn : List String) (tone : EmotionalTone) (cs : ℚ) (now : Nat),
      s.analysis_result = some r →
      s.applyAnalysisRun hm ia lt wn tone cs now =
        (s, some (.invalidSituation "Situation already analyzed")))
    ∧ (∀ (s s1 : Situation) (hm : String) (ia lt wn : List String)
      (tone : EmotionalTone) (cs : ℚ) (now : Nat) (hm2 : String)
      (ia2 lt2 wn2 : List String) (tone2 : EmotionalTone) (cs2 : ℚ)
      (now2 : Nat),
      s.apply_analysis hm ia lt wn tone cs now = .ok s1 →
      s1.applyAnalysisRun hm2 ia2 lt2 wn2 tone2 cs2 now2 =
        (s1, some (.invalidSituation "Situation already analyzed"))) := by
  have key : ∀ (s : Situation) (r : AnalysisResult) (hm : String)
      (ia lt wn : List String) (tone : EmotionalTone) (cs : ℚ) (now : Nat),
      s.analysis_result = some r →
      s.applyAnalysisRun hm ia lt wn tone cs now =
        (s, some (.invalidSituation "Situation already analyzed")) := by
    intro s r hm ia lt wn tone cs now h
    unfold Situation.applyAnalysisRun Situation.apply_analysis
    simp [h]
  refine ⟨key, ?_⟩
  intro s s1 hm ia lt wn tone cs now hm2 ia2 lt2 wn2 tone2 cs2 now2 h
  unfold Situation.apply_analysis at h
  by_cases hs : s.analysis_result.isSome
  · simp [hs] at h
  · simp [hs] at h
    apply key _ { hidden_meaning := hm, immediate_actions := ia
                  long_term_recommendations := lt, what_not_to_do := wn
                  emotional_tone := tone, confidence_score := cs
                  analyzed_at := now }
    rw [← h]

/-- Witness for C9 at a concrete analyzed situation. -/
theorem C9_apply_analysis_at_most_once_witness :
    Situation.applyAnalysisRun sampleAnalyzed "h" [] [] [] .neutral 1 9 =
      (sampleAnalyzed,
        some (.invalidSituation "Situation already analyzed")) :=
  C9_apply_analysis_at_most_once.1 sampleAnalyzed sampleResult
    "h" [] [] [] .neutral 1 9 rfl

/-- C5 counterexample: the claim predicates validation on the trimmed
length, but `Situation.create` checks the raw length before trimming.
`"abcdefg   "` has raw length 10 and trimmed length 7 < 10, yet `create`
succeeds instead of failing with `InvalidSituation`. -/
theorem C5_counterexample :
    (pyStrip "abcdefg   ").length < 10 ∧
    (Situation.create 1 2 "abcdefg   " none 3 4).toOption.isSome = true := by
  decide

/-- C5 amended: `Situation.create` validates the RAW (untrimmed) length
of `situationText`: when it lies in [10, 2000] the call succeeds and
yields a not-yet-analyzed record carrying the trimmed text, the supplied
fresh identifier and the current instant; when it is below 10 or above
2000 the call fails with `InvalidSituation`. -/
theorem C5_raw_length_validation (uid cid freshId now : Nat)
    (description : String) (context : Option String) :
    (10 ≤ description.length ∧ description.length ≤ 2000 →
      Situation.create uid cid description context freshId now =
        .ok { id := freshId, user_id := uid, child_id := cid
              description := pyStrip description, context := context
              analysis_result := none, created_at := now
              analyzed_at := none, events := [] })
    ∧ (description.length < 10 ∨ 2000 < description.length →
      ∃ msg, Situation.create uid cid description context freshId now =
        Except.error (.invalidSituation msg)) := by
  unfold Situation.create Situation.MIN_DESCRIPTION_LENGTH
    Situation.MAX_DESCRIPTION_LENGTH
  constructor
  · rintro ⟨h1, h2⟩
    rw [if_neg (by omega), if_neg (by omega)]
  · rintro (h | h)
    · rw [if_pos h]
      exact ⟨_, rfl⟩
    · by_cases h10 : description.length < 10
      · rw [if_pos h10]
        exact ⟨_, rfl⟩
      · rw [if_neg h10, if_pos (by omega)]
        exact ⟨_, rfl⟩

/-- Witness for C5 at a raw length of exactly 10. -/
theorem C5_raw_length_validation_witness :
    Situation.create 1 2 "0123456789" none 3 4 =
      .ok { id := 3, user_id := 1, child_id := 2
            description := pyStrip "0123456789", context := none
            analysis_result := none, created_at := 4
            analyzed_at := none, events := [] } :=
  (C5_raw_length_validation 1 2 3 4 "0123456789" none).1 (by decide)

/-! ## C4: the state-field coupling invariant -/

/-- States of the `Analysis` aggregate reachable through its transition
methods, starting from `Analysis.create`. -/
inductive AnalysisReachable : Analysis → Prop
| create_ok (user_id child_id : Nat) (text : String) (freshId now : Nat)
    (a : Analysis) :
    Analysis.create user_id child_id text freshId now = .ok a →
    AnalysisReachable a
| step_start (a a1 : Analysis) :
    AnalysisReachable a → a.start_processing = .ok a1 →
    AnalysisReachable a1
| step_complete (a a1 : Analysis) (rec : AIRecommendation) (now : Nat) :
    AnalysisReachable a → a.complete rec now = .ok a1 →
    AnalysisReachable a1
| step_fail (a : Analysis) (msg : String) (now : Nat) :
    AnalysisReachable a → AnalysisReachable (a.fail msg now)

/-- As `AnalysisReachable`, but `fail` is only invoked on a record that
is still Pending or Processing — the discipline the orchestrator
observes. -/
inductive AnalysisReachableGuarded : Analysis → Prop
| create_ok (user_id child_id : Nat) (text : String) (freshId now : Nat)
    (a : Analysis) :
    Analysis.create user_id child_id text freshId now = .ok a →
    AnalysisReachableGuarded a
| step_start (a a1 : Analysis) :
    AnalysisReachableGuarded a → a.start_processing = .ok a1 →
    AnalysisReachableGuarded a1
| step_complete (a a1 : Analysis) (rec : AIRecommendation) (now : Nat) :
    AnalysisReachableGuarded a → a.complete rec now = .ok a1 →
    AnalysisReachableGuarded a1
| step_fail (a : Analysis) (msg : String) (now : Nat) :
    AnalysisReachableGuarded a →
    a.status = .pending ∨ a.status = .processing →
    AnalysisReachableGuarded (a.fail msg now)

/-- The state-field coupling invariant of the claim, together with the
timestamp property: the completion timestamp is present exactly on
terminal states. -/
def couplingInv (a : Analysis) : Prop :=
  (a.status = .completed ↔ a.recommendation ≠ none ∧ a.error_message = none)
  ∧ (a.status = .failed ↔ a.error_message ≠ none ∧ a.recommendation = none)
  ∧ ((a.status = .pending ∨ a.status = .processing) ↔
      (a.recommendation = none ∧ a.error_message = none))
  ∧ ((a.status = .pending ∨ a.status = .processing) ↔ a.completed_at = none)

/-- The concrete trace used against C4. -/
def c4rec : AIRecommendation :=
  { hidden_meaning := "m", immediate_actions := "a"
    long_term_recommendations := "l", what_not_to_do := "w"
    confidence_score := 1 }

def c4a0 : Analysis :=
  { id := 10, user_id := 1, child_id := 2, situation := "0123456789"
    status := .pending, recommendation := none, created_at := 0
    completed_at := none, error_message := none
    events := [.requested 10 1 2 "0123456789" 0] }

def c4a1 : Analysis :=
  { c4a0 with status := .processing }

def c4a2 : Analysis :=
  { c4a1 with
    status := .completed, recommendation := some c4rec
    completed_at := some 5
    events := c4a1.events ++ [.completedEv 10 1 5 1] }

/-- C4 counterexample: `Analysis.fail` carries no state guard, so from a
reachable Completed record (completion timestamp 5) a further `fail`
attempt is NOT rejected: it yields a Failed record that still carries
the recommendation (breaking the coupling invariant) and whose
completion timestamp has changed from 5 to 9. -/
theorem C4_counterexample :
    Analysis.create 1 2 "0123456789" 10 0 = .ok c4a0 ∧
    c4a0.start_processing = .ok c4a1 ∧
    c4a1.complete c4rec 5 = .ok c4a2 ∧
    c4a2.status = .completed ∧ c4a2.completed_at = some 5 ∧
    (c4a2.fail "boom" 9).status = .failed ∧
    (c4a2.fail "boom" 9).recommendation = some c4rec ∧
    (c4a2.fail "boom" 9).completed_at = some 9 := by
  refine ⟨rfl, rfl, rfl, rfl, rfl, rfl, rfl, rfl⟩

/-- C4 amended: when `fail` is only invoked from Pending or Processing
(as the orchestrator does), every reachable state satisfies the
state-field coupling invariant and carries a completion timestamp
exactly on the terminal states; `start_processing` and `complete` on a
terminal record are rejected (raising before mutating, so the record and
its completion timestamp are untouched).  `fail` itself, however, is not
guarded: invoked on a terminal record it overwrites the completion
timestamp and can leave a Failed record with a recommendation. -/
theorem C4_guarded_coupling_invariant :
    (∀ a, AnalysisReachableGuarded a → couplingInv a)
    ∧ (∀ (a : Analysis) (rec : AIRecommendation) (now : Nat),
        a.status = .completed ∨ a.status = .failed →
        (∃ m, a.start_processing = .error m) ∧
        (∃ m, a.complete rec now = .error m)) := by
  constructor
  · intro a h
    induction h with
    | create_ok uid cid text freshId now a hc =>
      unfold Analysis.create SituationDescription.validate at hc
      by_cases hv : text = "" ∨ (pyStrip text).length < 10
      · simp [hv] at hc
      · by_cases hl : text.length > 2000
        · simp [hv, hl] at hc
        · simp [hv, hl] at hc
          subst hc
          simp [couplingInv]
    | step_start a a1 _ hs ih =>
      unfold Analysis.start_processing at hs
      by_cases hp : a.status = AnalysisStatus.pending
      · simp [hp] at hs
        subst hs
        rcases ih with ⟨_, _, i3, i4⟩
        have hn := i3.mp (Or.inl hp)
        have hc := i4.mp (Or.inl hp)
        simp [couplingInv, hn.1, hn.2, hc]
      · simp [hp] at hs
    | step_complete a a1 rec now _ hs ih =>
      unfold Analysis.complete at hs
      by_cases hp : a.status = AnalysisStatus.processing
      · simp [hp] at hs
        subst hs
        rcases ih with ⟨_, _, i3, _⟩
        have hn := i3.mp (Or.inr hp)
        simp [couplingInv, hn.2]
      · simp [hp] at hs
    | step_fail a msg now _ hsrc ih =>
      rcases ih with ⟨_, _, i3, _⟩
      have hn := i3.mp hsrc
      simp [couplingInv, Analysis.fail, hn.1]
  · intro a rec now h
    have h1 : a.status ≠ AnalysisStatus.pending := by
      rcases h with h | h <;> simp [h]
    have h2 : a.status ≠ AnalysisStatus.processing := by
      rcases h with h | h <;> simp [h]
    constructor
    · exact ⟨"Cannot start processing from status " ++ a.status.value, by
        unfold Analysis.start_processing
        rw [if_pos h1]⟩
    · exact ⟨"Cannot complete from status " ++ a.status.value, by
        unfold Analysis.complete
        rw [if_pos h2]⟩

/-- Witness for C4 at the concrete Completed record of the trace. -/
theorem C4_guarded_coupling_invariant_witness :
    couplingInv c4a2 :=
  C4_guarded_coupling_invariant.1 c4a2
    (.step_complete c4a1 c4a2 c4rec 5
      (.step_start c4a0 c4a1
        (.create_ok 1 2 "0123456789" 10 0 c4a0 rfl) rfl) rfl)

/-! ## C6: retry and backoff -/

/-- When every attempt raises a non-timeout error, the loop runs exactly
`remaining` more attempts and re-raises the error. -/
theorem analyzeLoop_const_failure (m : String) (n : Nat) :
    ∀ (rem i : Nat), i + rem = n → 1 ≤ rem →
    (analyzeLoop (fun _ => .failure m) n i rem).result =
      some (.error (.failure m)) ∧
    (analyzeLoop (fun _ => .failure m) n i rem).calls = rem := by
  intro rem
  induction rem with
  | zero => intro i _ h1; omega
  | succ k ih =>
    intro i hin h1
    by_cases hl : i = n - 1
    · have hk : k = 0 := by omega
      subst hk
      simp [analyzeLoop, hl]
    · have hrec := ih (i + 1) (by omega) (by omega)
      simp [analyzeLoop, hl, hrec.1, hrec.2]

/-- When every attempt times out, the loop runs exactly `remaining` more
attempts, re-raises the timeout, and never sleeps. -/
theorem analyzeLoop_const_timeout (n : Nat) :
    ∀ (rem i : Nat), i + rem = n → 1 ≤ rem →
    (analyzeLoop (fun _ => .timeout) n i rem).result =
      some (.error .timeout) ∧
    (analyzeLoop (fun _ => .timeout) n i rem).calls = rem ∧
    (analyzeLoop (fun _ => .timeout) n i rem).sleeps = [] := by
  intro rem
  induction rem with
  | zero => intro i _ h1; omega
  | succ k ih =>
    intro i hin h1
    by_cases hl : i = n - 1
    · have hk : k = 0 := by omega
      subst hk
      simp [analyzeLoop, hl]
    · have hrec := ih (i + 1) (by omega) (by omega)
      simp [analyzeLoop, hl, hrec.1, hrec.2.1, hrec.2.2]

/-- C6 counterexample: with `retryAttempts = 3`, a first attempt that
times out is followed immediately by the next attempt — two calls run
and the list of backoff sleeps is empty, though the claim requires a
2^0-second wait between these consecutive attempts. -/
theorem C6_counterexample :
    (ClaudeAdapter.analyze_situation
      (fun i => if i = 0 then .timeout else .success []) 3).calls = 2 ∧
    (ClaudeAdapter.analyze_situation
      (fun i => if i = 0 then .timeout else .success []) 3).sleeps = [] ∧
    (ClaudeAdapter.analyze_situation
      (fun i => if i = 0 then .timeout else .success []) 3).result =
      some (.ok []) := by
  refine ⟨rfl, rfl, rfl⟩

/-- C6 amended: timeouts and transport errors are retried up to the
configured `retryAttempts`, but the 2^attempt-second backoff is slept
only after a non-timeout error that is not the last attempt — a
timed-out attempt is retried immediately with no backoff.  A service
failing twice then succeeding (with `retryAttempts = 3`) yields the
success with exactly 3 calls (backoffs 1 and 2 seconds); a service that
always fails propagates the last error after exactly `retryAttempts`
attempts (with no sleeps at all when the failures are timeouts). -/
theorem C6_retry_backoff_semantics :
    (∀ (p : JObj) (m1 m2 : String),
      ClaudeAdapter.analyze_situation
        (fun i => if i = 0 then .failure m1
          else if i = 1 then .failure m2 else .success p) 3 =
        ⟨some (.ok p), 3, [1, 2]⟩)
    ∧ (∀ (m : String) (n : Nat), 1 ≤ n →
      (ClaudeAdapter.analyze_situation (fun _ => .failure m) n).result =
        some (.error (.failure m)) ∧
      (ClaudeAdapter.analyze_situation (fun _ => .failure m) n).calls = n)
    ∧ (∀ (n : Nat), 1 ≤ n →
      (ClaudeAdapter.analyze_situation (fun _ => .timeout) n).result =
        some (.error .timeout) ∧
      (ClaudeAdapter.analyze_situation (fun _ => .timeout) n).calls = n ∧
      (ClaudeAdapter.analyze_situation (fun _ => .timeout) n).sleeps = [])
    ∧ (∀ (p : JObj),
      ClaudeAdapter.analyze_situation
        (fun i => if i = 0 then .timeout else .success p) 3 =
        ⟨some (.ok p), 2, []⟩) := by
  refine ⟨?_, ?_, ?_, ?_⟩
  · intro p m1 m2
    rfl
  · intro m n h1
    exact analyzeLoop_const_failure m n n 0 (by omega) h1
  · intro n h1
    exact analyzeLoop_const_timeout n n 0 (by omega) h1
  · intro p
    rfl

/-- Witness for C6: the always-failing service at `retryAttempts = 3`. -/
theorem C6_retry_backoff_semantics_witness :
    (ClaudeAdapter.analyze_situation (fun _ => .failure "E") 3).result =
      some (.error (.failure "E")) ∧
    (ClaudeAdapter.analyze_situation (fun _ => .failure "E") 3).calls = 3 :=
  C6_retry_backoff_semantics.2.1 "E" 3 (by decide)

/-! ## C7: response parsing, defaults and fallback -/

/-- Reading back the key just assigned. -/
theorem jget_jset_self (o : JObj) (k : String) (v : JVal) :
    jget (jset o k v) k = some v := by
  induction o with
  | nil => simp [jset, jget]
  | cons p t ih =>
    by_cases hp : p.1 = k
    · simp [jset, jget, hp]
    · simp [jset, jget, hp, ih]

/-- Assigning one key leaves every other key unchanged. -/
theorem jget_jset_ne (o : JObj) (k k2 : String) (v : JVal) (h : k ≠ k2) :
    jget (jset o k v) k2 = jget o k2 := by
  induction o with
  | nil =>
    show jget [(k, v)] k2 = none
    simp only [jget]
    rw [if_neg h]
  | cons p t ih =>
    obtain ⟨k1, v1⟩ := p
    show jget (if k1 = k then (k1, v) :: t else (k1, v1) :: jset t k v) k2
      = _
    by_cases hp : k1 = k
    · rw [if_pos hp]
      show (if k1 = k2 then some v else jget t k2) =
        if k1 = k2 then some v1 else jget t k2
      have hne : k1 ≠ k2 := by rw [hp]; exact h
      rw [if_neg hne, if_neg hne]
    · rw [if_neg hp]
      show (if k1 = k2 then some v1 else jget (jset t k v) k2) =
        if k1 = k2 then some v1 else jget t k2
      by_cases hq : k1 = k2
      · rw [if_pos hq, if_pos hq]
      · rw [if_neg hq, if_neg hq, ih]

/-- C7: with all required fields present, an `emotional_tone` whose
string value lies outside the fixed enum is coerced to `"neutral"`;
a response missing any of the four content fields, or with no
extractable JSON object, yields the fixed fallback (confidence 0.5)
instead of raising; and a parsed response lacking `confidence_score` is
given the default 0.8. -/
theorem C7_parse_defaults_and_fallback :
    (∀ (o : JObj) (t : String),
      jhas o "hidden_meaning" = true →
      jhas o "immediate_actions" = true →
      jhas o "long_term_recommendations" = true →
      jhas o "what_not_to_do" = true →
      jget o "emotional_tone" = some (.str t) →
      t ∉ valid_tones →
      jget (ClaudeAdapter.parse_response (some o)) "emotional_tone" =
        some (.str "neutral"))
    ∧ (∀ (o : JObj),
      jhas o "hidden_meaning" = false ∨
      jhas o "immediate_actions" = false ∨
      jhas o "long_term_recommendations" = false ∨
      jhas o "what_not_to_do" = false →
      ClaudeAdapter.parse_response (some o) = fallback_response)
    ∧ ClaudeAdapter.parse_response none = fallback_response
    ∧ (∀ (o : JObj),
      required_fields.all (fun f => jhas o f) = true →
      jhas o "confidence_score" = false →
      jget (ClaudeAdapter.parse_response (some o)) "confidence_score" =
        some (.num (8/10))) := by
  have hne : ("confidence_score" : String) ≠ "emotional_tone" := by
    decide
  refine ⟨?_, ?_, rfl, ?_⟩
  · intro o t h1 h2 h3 h4 ht htv
    have h5 : jhas o "emotional_tone" = true := by
      unfold jhas
      rw [ht]
      rfl
    have hreq : (required_fields.all fun f => jhas o f) = true := by
      simp [required_fields, h1, h2, h3, h4, h5]
    by_cases hc : jhas o "confidence_score"
    · simp only [ClaudeAdapter.parse_response, hreq, if_true, hc, ht, htv,
        if_false, jget_jset_self]
    · simp only [ClaudeAdapter.parse_response, hreq, if_true, hc,
        Bool.false_eq_true, if_false, jget_jset_ne o _ _ _ hne, ht, htv,
        jget_jset_self]
  · intro o h
    have hreq : (required_fields.all fun f => jhas o f) = false := by
      rcases h with h | h | h | h <;> simp [required_fields, h]
    simp only [ClaudeAdapter.parse_response, hreq, Bool.false_eq_true,
      if_false]
  · intro o hreq hc
    have h5 : jhas o "emotional_tone" = true := by
      have hr := hreq
      simp [required_fields] at hr
      exact hr.2.2.2.2
    rcases hv : jget o "emotional_tone" with _ | v
    · rw [jhas, hv] at h5
      simp at h5
    · have hTone : jget (jset o "confidence_score" (.num (8/10)))
          "emotional_tone" = some v := by
        rw [jget_jset_ne o _ _ _ hne, hv]
      rcases v with s | xs | q
      · by_cases hs : s ∈ valid_tones
        · simp only [ClaudeAdapter.parse_response, hreq, if_true, hc,
            Bool.false_eq_true, if_false, hTone, hs, jget_jset_self]
        · simp only [ClaudeAdapter.parse_response, hreq, if_true, hc,
            Bool.false_eq_true, if_false, hTone, hs,
            jget_jset_ne _ _ _ _ (Ne.symm hne), jget_jset_self]
      · simp only [ClaudeAdapter.parse_response, hreq, if_true, hc,
          Bool.false_eq_true, if_false, hTone,
          jget_jset_ne _ _ _ _ (Ne.symm hne), jget_jset_self]
      · simp only [ClaudeAdapter.parse_response, hreq, if_true, hc,
          Bool.false_eq_true, if_false, hTone,
          jget_jset_ne _ _ _ _ (Ne.symm hne), jget_jset_self]

/-- Witness for C7 at a concrete response carrying `"bogus"` as its
emotional tone. -/
theorem C7_parse_defaults_and_fallback_witness :
    jget (ClaudeAdapter.parse_response (some
      [("hidden_meaning", .str "a"), ("immediate_actions", .arr ["b"]),
       ("long_term_recommendations", .arr ["c"]),
       ("what_not_to_do", .arr ["d"]),
       ("emotional_tone", .str "bogus")])) "emotional_tone" =
      some (.str "neutral") :=
  C7_parse_defaults_and_fallback.1
    [("hidden_meaning", .str "a"), ("immediate_actions", .arr ["b"]),
     ("long_term_recommendations", .arr ["c"]),
     ("what_not_to_do", .arr ["d"]), ("emotional_tone", .str "bogus")]
    "bogus" (by decide) (by decide) (by decide) (by decide) (by decide)
    (by decide)

/-! ## C8: counter increments and key expiries -/

/-- A daily key can never collide with an hourly key: they differ inside
their fixed prefixes. -/
theorem daily_key_ne_hourly_key (u1 d u2 h : String) :
    daily_key u1 d ≠ hourly_key u2 h := by
  intro he
  have hd := congrArg String.data he
  unfold daily_key hourly_key at hd
  simp only [String.data_append, List.append_assoc] at hd
  have h12 := congrArg (List.take 12) hd
  rw [List.take_append_of_le_length (by decide),
    List.take_append_of_le_length (by decide)] at h12
  exact absurd h12 (by decide)

/-- Reading back the entry just written. -/
theorem entryList_set_self (l : List (String × RedisEntry)) (k : String)
    (e : RedisEntry) : entryList (setEntryList l k e) k = some e := by
  induction l with
  | nil =>
    show (if k = k then some e else none) = some e
    rw [if_pos rfl]
  | cons p t ih =>
    obtain ⟨k1, e1⟩ := p
    show entryList
      (if k1 = k then (k1, e) :: t else (k1, e1) :: setEntryList t k e) k
      = some e
    by_cases hp : k1 = k
    · rw [if_pos hp]
      show (if k1 = k then some e else entryList t k) = some e
      rw [if_pos hp]
    · rw [if_neg hp]
      show (if k1 = k then some e1 else entryList (setEntryList t k e) k)
        = some e
      rw [if_neg hp, ih]

/-- Writing one key leaves every other key's entry unchanged. -/
theorem entryList_set_ne (l : List (String × RedisEntry)) (k k2 : String)
    (e : RedisEntry) (h : k ≠ k2) :
    entryList (setEntryList l k e) k2 = entryList l k2 := by
  induction l with
  | nil =>
    show (if k = k2 then some e else none) = none
    rw [if_neg h]
  | cons p t ih =>
    obtain ⟨k1, e1⟩ := p
    show entryList
      (if k1 = k then (k1, e) :: t else (k1, e1) :: setEntryList t k e) k2
      = _
    by_cases hp : k1 = k
    · rw [if_pos hp]
      show (if k1 = k2 then some e else entryList t k2) =
        if k1 = k2 then some e1 else entryList t k2
      have hne : k1 ≠ k2 := by rw [hp]; exact h
      rw [if_neg hne, if_neg hne]
    · rw [if_neg hp]
      show (if k1 = k2 then some e1 else entryList (setEntryList t k e) k2)
        = if k1 = k2 then some e1 else entryList t k2
      by_cases hq : k1 = k2
      · rw [if_pos hq, if_pos hq]
      · rw [if_neg hq, if_neg hq, ih]

/-- `INCR` on one key does not touch another key's entry. -/
theorem entry_incr_ne (st : RedisState) (k k2 : String) (now : Nat)
    (h : k ≠ k2) : (st.incr k now).entry k2 = st.entry k2 := by
  rcases he : st.entry k with _ | e
  · simp only [RedisState.incr, he]
    exact entryList_set_ne st.entries k k2 _ h
  · simp only [RedisState.incr, he]
    by_cases hl : e.liveAt now
    · rw [if_pos hl]
      exact entryList_set_ne st.entries k k2 _ h
    · rw [if_neg hl]
      exact entryList_set_ne st.entries k k2 _ h

/-- `EXPIRE` on one key does not touch another key's entry. -/
theorem entry_expire_ne (st : RedisState) (k k2 : String) (ttl now : Nat)
    (h : k ≠ k2) : (st.expire k ttl now).entry k2 = st.entry k2 := by
  rcases he : st.entry k with _ | e
  · simp only [RedisState.expire, he]
  · simp only [RedisState.expire, he]
    by_cases hl : e.liveAt now
    · rw [if_pos hl]
      exact entryList_set_ne st.entries k k2 _ h
    · rw [if_neg hl]

/-- `GET` on another key is unchanged by `INCR` then `EXPIRE`. -/
theorem redisGet_incr_expire_ne (st : RedisState) (k k2 : String)
    (ttl now t : Nat) (h : k ≠ k2) :
    (((st.incr k now).expire k ttl now)).redisGet k2 t =
      st.redisGet k2 t := by
  unfold RedisState.redisGet
  rw [entry_expire_ne _ _ _ _ _ h, entry_incr_ne _ _ _ _ h]

/-- `INCR` then `EXPIRE ttl` on the same key: the stored value becomes
the previous live value plus one (1 for an absent or expired key) and
the expiry becomes `now + ttl` — regardless of any previous expiry. -/
theorem entry_incr_expire_self (st : RedisState) (k : String)
    (ttl now : Nat) :
    ((st.incr k now).expire k ttl now).entry k =
      some ⟨(st.redisGet k now).getD 0 + 1, some (now + ttl)⟩ := by
  rcases he : st.entry k with _ | e
  · have h1 : (st.incr k now).entry k = some ⟨1, none⟩ := by
      simp only [RedisState.incr, he]
      exact entryList_set_self st.entries k _
    have hg : st.redisGet k now = none := by
      simp only [RedisState.redisGet, he]
    simp only [RedisState.expire, h1, hg]
    rw [if_pos (by rfl)]
    exact entryList_set_self _ k _
  · by_cases hl : e.liveAt now
    · have h1 : (st.incr k now).entry k = some ⟨e.value + 1, e.expires_at⟩
        := by
        simp only [RedisState.incr, he, if_pos hl]
        exact entryList_set_self st.entries k _
      have hg : st.redisGet k now = some e.value := by
        simp only [RedisState.redisGet, he, if_pos hl]
      have hl2 : RedisEntry.liveAt ⟨e.value + 1, e.expires_at⟩ now = true
        := hl
      simp only [RedisState.expire, h1, if_pos hl2, hg]
      exact entryList_set_self _ k _
    · have h1 : (st.incr k now).entry k = some ⟨1, none⟩ := by
        simp only [RedisState.incr, he, if_neg hl]
        exact entryList_set_self st.entries k _
      have hg : st.redisGet k now = none := by
        simp only [RedisState.redisGet, he, if_neg hl]
      simp only [RedisState.expire, h1, hg]
      rw [if_pos (by rfl)]
      exact entryList_set_self _ k _

/-- C8 counterexample: two increments for the same user inside the same
daily window, 10 seconds apart.  After the second increment the daily
key's expiry is 86410 — it moved with the second increment — whereas the
claim ("TTL set on first write, not extended by later increments")
requires it to still be 86400. -/
theorem C8_counterexample :
    (RedisRateLimiter.increment_usage
      (RedisRateLimiter.increment_usage ⟨[]⟩ "7"
        ⟨"2026-10-12", "2026101210", 0⟩)
      "7" ⟨"2026-10-12", "2026101210", 10⟩).entry
      (daily_key "7" "2026-10-12") =
      some ⟨2, some 86410⟩ := by
  decide

/-- C8 amended: `increment_usage` increments both the daily and the
hourly counter for the user and (re)sets the daily key's expiry to 24
hours and the hourly key's expiry to 1 hour measured from the CURRENT
increment — the `EXPIRE` runs on every increment, so each increment
within the window extends the key's expiry. -/
theorem C8_increment_resets_expiry (st : RedisState) (user : String)
    (now : UtcTime) :
    (RedisRateLimiter.increment_usage st user now).entry
        (daily_key user now.dateIso) =
      some ⟨(st.redisGet (daily_key user now.dateIso) now.epoch).getD 0
        + 1, some (now.epoch + 86400)⟩
    ∧ (RedisRateLimiter.increment_usage st user now).entry
        (hourly_key user now.ymdh) =
      some ⟨(st.redisGet (hourly_key user now.ymdh) now.epoch).getD 0
        + 1, some (now.epoch + 3600)⟩ := by
  have hne : daily_key user now.dateIso ≠ hourly_key user now.ymdh :=
    daily_key_ne_hourly_key user now.dateIso user now.ymdh
  unfold RedisRateLimiter.increment_usage
  constructor
  · rw [entry_expire_ne _ _ _ _ _ (Ne.symm hne),
      entry_incr_ne _ _ _ _ (Ne.symm hne),
      entry_incr_expire_self]
  · rw [entry_incr_expire_self,
      redisGet_incr_expire_ne _ _ _ _ _ _ hne]

/-! ## C10: the update branch of repository save -/

/-- `updateRow` never touches the row identifier. -/
theorem updateRow_id (m : AnalysisModel) (a : Analysis) :
    (updateRow m a).id = m.id := by
  unfold updateRow
  rcases a.recommendation with _ | r <;> rfl

/-- Finding by identifier through the mapped update. -/
theorem find_map_update (db : List AnalysisModel) (a : Analysis) :
    (db.map (fun m => if m.id = a.id then updateRow m a else m)).find?
      (fun m => m.id = a.id) =
    (db.find? (fun m => m.id = a.id)).map (fun m => updateRow m a) := by
  induction db with
  | nil => rfl
  | cons m t ih =>
    by_cases hp : m.id = a.id
    · simp [List.find?_cons, hp, updateRow_id]
    · simp [List.find?_cons, hp, ih]

/-- C10: saving an aggregate whose identifier already exists updates
only the status, the completion timestamp, the error message and — only
when the aggregate carries a recommendation — the five recommendation
columns; the stored user identifier, child identifier, situation
description and creation timestamp are unchanged, and a null
recommendation never clears previously stored recommendation
columns. -/
theorem C10_save_updates_only_outcome_fields (db : List AnalysisModel)
    (a : Analysis) (m : AnalysisModel) (hm : dbFind db a.id = some m) :
    dbFind (SqlAlchemyAnalysisRepository.save db a) a.id =
      some (updateRow m a) ∧
    (updateRow m a).user_id = m.user_id ∧
    (updateRow m a).child_id = m.child_id ∧
    (updateRow m a).situation_description = m.situation_description ∧
    (updateRow m a).created_at = m.created_at ∧
    (updateRow m a).status = a.status.value ∧
    (updateRow m a).completed_at = a.completed_at ∧
    (updateRow m a).error_message = a.error_message ∧
    (a.recommendation = none →
      (updateRow m a).hidden_meaning = m.hidden_meaning ∧
      (updateRow m a).immediate_actions = m.immediate_actions ∧
      (updateRow m a).long_term_recommendations =
        m.long_term_recommendations ∧
      (updateRow m a).what_not_to_do = m.what_not_to_do ∧
      (updateRow m a).confidence_score = m.confidence_score) ∧
    (∀ r, a.recommendation = some r →
      (updateRow m a).hidden_meaning = some r.hidden_meaning ∧
      (updateRow m a).immediate_actions = some r.immediate_actions ∧
      (updateRow m a).long_term_recommendations =
        some r.long_term_recommendations ∧
      (updateRow m a).what_not_to_do = some r.what_not_to_do ∧
      (updateRow m a).confidence_score = some r.confidence_score) := by
  have hsome : (db.find? (fun m => m.id = a.id)).isSome := by
    unfold dbFind at hm
    rw [hm]
    rfl
  refine ⟨?_, ?_, ?_, ?_, ?_, ?_, ?_, ?_, ?_, ?_⟩
  · unfold SqlAlchemyAnalysisRepository.save dbFind
    rw [if_pos hsome, find_map_update]
    unfold dbFind at hm
    rw [hm]
    rfl
  all_goals
    unfold updateRow
  · rcases a.recommendation with _ | r <;> rfl
  · rcases a.recommendation with _ | r <;> rfl
  · rcases a.recommendation with _ | r <;> rfl
  · rcases a.recommendation with _ | r <;> rfl
  · rcases a.recommendation with _ | r <;> rfl
  · rcases a.recommendation with _ | r <;> rfl
  · rcases a.recommendation with _ | r <;> rfl
  · intro hnone
    rw [hnone]
    exact ⟨rfl, rfl, rfl, rfl, rfl⟩
  · intro r hr
    rw [hr]
    exact ⟨rfl, rfl, rfl, rfl, rfl⟩

/-- Row and aggregate instantiating the C10 frame theorem: a Failed
aggregate with no recommendation saved over a row holding earlier
recommendation columns. -/
def c10row : AnalysisModel :=
  { id := 1, user_id := 2, child_id := 3, situation_description := "s"
    status := "processing", created_at := 4, completed_at := none
    error_message := none, hidden_meaning := some "H"
    immediate_actions := some "I"
    long_term_recommendations := some "L", what_not_to_do := some "W"
    confidence_score := some 1 }

def c10agg : Analysis :=
  { id := 1, user_id := 2, child_id := 3, situation := "s"
    status := .failed, recommendation := none, created_at := 4
    completed_at := some 6, error_message := some "boom", events := [] }

/-- Witness for C10: the updated row keeps the old recommendation
columns and identity fields while taking the failed outcome fields. -/
theorem C10_save_updates_only_outcome_fields_witness :
    dbFind (SqlAlchemyAnalysisRepository.save [c10row] c10agg)
      c10agg.id = some (updateRow c10row c10agg) ∧
    (updateRow c10row c10agg).hidden_meaning = some "H" ∧
    (updateRow c10row c10agg).status = "failed" ∧
    (updateRow c10row c10agg).error_message = some "boom" ∧
    (updateRow c10row c10agg).created_at = 4 := by
  have h := C10_save_updates_only_outcome_fields [c10row] c10agg c10row
    rfl
  exact ⟨h.1, ((h.2.2.2.2.2.2.2.2.1) rfl).1, h.2.2.2.2.2.1,
    h.2.2.2.2.2.2.2.1, h.2.2.2.2.1⟩

/-! ## C1, C2, C3: the orchestrated request pipeline -/

/-- The Pending record step 2 creates when validation passes. -/
def pendingOf (user_id child_id : Nat) (text : String)
    (freshId epoch : Nat) : Analysis :=
  { id := freshId, user_id := user_id, child_id := child_id
    situation := text, status := .pending, recommendation := none
    created_at := epoch, completed_at := none, error_message := none
    events := [.requested freshId user_id child_id text epoch] }

/-- The Processing record after step 3. -/
def processingOf (user_id child_id : Nat) (text : String)
    (freshId epoch : Nat) : Analysis :=
  { pendingOf user_id child_id text freshId epoch with
    status := .processing }

/-- The Completed record after a successful gateway call. -/
def completedOf (user_id child_id : Nat) (text : String)
    (freshId epoch : Nat) (rec : AIRecommendation) : Analysis :=
  { processingOf user_id child_id text freshId epoch with
    status := .completed, recommendation := some rec
    completed_at := some epoch
    events := (processingOf user_id child_id text freshId epoch).events
      ++ [.completedEv freshId user_id epoch rec.confidence_score] }

/-- The Failed record after an exhausted gateway. -/
def failedOf (user_id child_id : Nat) (text : String)
    (freshId epoch : Nat) (cause : String) : Analysis :=
  { processingOf user_id child_id text freshId epoch with
    status := .failed, error_message := some cause
    completed_at := some epoch }

/-- `SituationDescription.validate` returns the raw input on success. -/
theorem validate_ok_eq (t v : String)
    (h : SituationDescription.validate t = .ok v) : v = t := by
  unfold SituationDescription.validate at h
  by_cases h1 : t = "" ∨ (pyStrip t).length < 10
  · rw [if_pos h1] at h
    simp at h
  · rw [if_neg h1] at h
    by_cases h2 : t.length > 2000
    · rw [if_pos h2] at h
      simp at h
    · rw [if_neg h2] at h
      exact (Except.ok.injEq _ _).mp h.symm

/-- Quota-denied path of `requestAnalysis`. -/
theorem requestAnalysis_eval_quota (w : World) (lim : Limits)
    (user_id child_id : Nat) (text : String)
    (gw : Except String AIRecommendation) (freshId : Nat) (now : UtcTime)
    (hq : RedisRateLimiter.check_limit w.redis lim (toString user_id) now
      = false) :
    requestAnalysis w lim user_id child_id text gw freshId now =
      (w, .error .quotaExceeded) := by
  unfold requestAnalysis
  rw [hq]
  rfl

/-- Invalid-text path of `requestAnalysis`. -/
theorem requestAnalysis_eval_invalid (w : World) (lim : Limits)
    (user_id child_id : Nat) (text : String)
    (gw : Except String AIRecommendation) (freshId : Nat) (now : UtcTime)
    (m : String)
    (hq : RedisRateLimiter.check_limit w.redis lim (toString user_id) now
      = true)
    (hv : SituationDescription.validate text = .error m) :
    requestAnalysis w lim user_id child_id text gw freshId now =
      (w, .error (.invalidSituation m)) := by
  unfold requestAnalysis
  rw [hq]
  have hc : Analysis.create user_id child_id text freshId now.epoch =
      .error m := by
    unfold Analysis.create
    rw [hv]
  rw [if_pos rfl, hc]

/-- Gateway-failure path of `requestAnalysis`: the record is driven
Pending → Processing → Failed, each state persisted, and the error is
re-raised as `AnalysisFailed` with the cause; the counter store is not
touched. -/
theorem requestAnalysis_eval_gwerror (w : World) (lim : Limits)
    (user_id child_id : Nat) (text cause : String) (freshId : Nat)
    (now : UtcTime)
    (hq : RedisRateLimiter.check_limit w.redis lim (toString user_id) now
      = true)
    (hv : SituationDescription.validate text = .ok text) :
    requestAnalysis w lim user_id child_id text (.error cause) freshId
      now =
      ({ store := SqlAlchemyAnalysisRepository.save
          (SqlAlchemyAnalysisRepository.save
            (SqlAlchemyAnalysisRepository.save w.store
              (pendingOf user_id child_id text freshId now.epoch))
            (processingOf user_id child_id text freshId now.epoch))
          (failedOf user_id child_id text freshId now.epoch cause)
         redis := w.redis },
       .error (.analysisFailed cause)) := by
  unfold requestAnalysis
  rw [hq]
  have hc : Analysis.create user_id child_id text freshId now.epoch =
      .ok (pendingOf user_id child_id text freshId now.epoch) := by
    unfold Analysis.create
    rw [hv]
    rfl
  rw [if_pos rfl, hc]
  rfl

/-- Gateway-success path of `requestAnalysis`: the record is driven
Pending → Processing → Completed, each state persisted, and only then is
usage charged. -/
theorem requestAnalysis_eval_gwok (w : World) (lim : Limits)
    (user_id child_id : Nat) (text : String) (rec : AIRecommendation)
    (freshId : Nat) (now : UtcTime)
    (hq : RedisRateLimiter.check_limit w.redis lim (toString user_id) now
      = true)
    (hv : SituationDescription.validate text = .ok text) :
    requestAnalysis w lim user_id child_id text (.ok rec) freshId now =
      ({ store := SqlAlchemyAnalysisRepository.save
          (SqlAlchemyAnalysisRepository.save
            (SqlAlchemyAnalysisRepository.save w.store
              (pendingOf user_id child_id text freshId now.epoch))
            (processingOf user_id child_id text freshId now.epoch))
          (completedOf user_id child_id text freshId now.epoch rec)
         redis := RedisRateLimiter.increment_usage w.redis
          (toString user_id) now },
       .ok (completedOf user_id child_id text freshId now.epoch rec))
      := by
  unfold requestAnalysis
  rw [hq]
  have hc : Analysis.create user_id child_id text freshId now.epoch =
      .ok (pendingOf user_id child_id text freshId now.epoch) := by
    unfold Analysis.create
    rw [hv]
    rfl
  rw [if_pos rfl, hc]
  rfl

/-- `newRow` carries the aggregate's identifier. -/
theorem newRow_id (a : Analysis) : (newRow a).id = a.id := by
  unfold newRow
  rcases a.recommendation with _ | r <;> rfl

/-- Appending a matching element to a list with no match finds it. -/
theorem find_append_singleton_of_none {α : Type} (l : List α)
    (p : α → Bool) (x : α) (h : List.find? p l = none) (hx : p x = true) :
    List.find? p (l ++ [x]) = some x := by
  rw [List.find?_append, h]
  simp [List.find?_cons, hx]

/-- `save` over an existing identifier rewrites that row in place. -/
theorem dbFind_save_existing (db : List AnalysisModel) (a : Analysis)
    (m : AnalysisModel) (hm : dbFind db a.id = some m) :
    dbFind (SqlAlchemyAnalysisRepository.save db a) a.id =
      some (updateRow m a) := by
  have hsome : (db.find? (fun x => x.id = a.id)).isSome := by
    unfold dbFind at hm
    rw [hm]
    rfl
  unfold SqlAlchemyAnalysisRepository.save dbFind
  rw [if_pos hsome, find_map_update]
  unfold dbFind at hm
  rw [hm]
  rfl

/-- `save` over a fresh identifier appends the fresh row. -/
theorem dbFind_save_new (db : List AnalysisModel) (a : Analysis)
    (hm : dbFind db a.id = none) :
    dbFind (SqlAlchemyAnalysisRepository.save db a) a.id =
      some (newRow a) := by
  have hns : (db.find? (fun x => x.id = a.id)).isSome = false := by
    unfold dbFind at hm
    rw [hm]
    rfl
  unfold SqlAlchemyAnalysisRepository.save dbFind
  rw [if_neg (by rw [hns]; exact Bool.false_ne_true)]
  exact find_append_singleton_of_none _ _ _ hm (by simp [newRow_id])

/-- A passed quota check bounds the live daily counter strictly below
the daily ceiling (a positive ceiling covers the absent-key case). -/
theorem check_true_daily_under (st : RedisState) (lim : Limits)
    (u : String) (now : UtcTime)
    (h : RedisRateLimiter.check_limit st lim u now = true)
    (hdl : 0 < lim.daily) :
    ((st.redisGet (daily_key u now.dateIso) now.epoch).getD 0 : Int) <
      lim.daily := by
  unfold RedisRateLimiter.check_limit at h
  rcases hg : st.redisGet (daily_key u now.dateIso) now.epoch with _ | c
  · simpa using hdl
  · simp only [hg] at h
    by_cases hge : (c : Int) ≥ lim.daily
    · rw [if_pos hge] at h
      exact absurd h (by simp)
    · simp only [Option.getD_some]
      omega

/-- After `increment_usage`, the live daily counter reads exactly one
more than before. -/
theorem redisGet_after_increment_daily (st : RedisState) (u : String)
    (now : UtcTime) :
    (RedisRateLimiter.increment_usage st u now).redisGet
      (daily_key u now.dateIso) now.epoch =
      some ((st.redisGet (daily_key u now.dateIso) now.epoch).getD 0
        + 1) := by
  have hne : daily_key u now.dateIso ≠ hourly_key u now.ymdh :=
    daily_key_ne_hourly_key u now.dateIso u now.ymdh
  have hentry : (RedisRateLimiter.increment_usage st u now).entry
      (daily_key u now.dateIso) =
      some ⟨(st.redisGet (daily_key u now.dateIso) now.epoch).getD 0 + 1,
        some (now.epoch + 86400)⟩ := by
    unfold RedisRateLimiter.increment_usage
    rw [entry_expire_ne _ _ _ _ _ (Ne.symm hne),
      entry_incr_ne _ _ _ _ (Ne.symm hne), entry_incr_expire_self]
  have hlive : RedisEntry.liveAt
      ⟨(st.redisGet (daily_key u now.dateIso) now.epoch).getD 0 + 1,
        some (now.epoch + 86400)⟩ now.epoch = true := by
    show decide (now.epoch < now.epoch + 86400) = true
    rw [decide_eq_true_eq]
    omega
  unfold RedisState.redisGet
  rw [hentry]
  simp only [hlive, if_true]
  rfl

/-- The daily-remaining component of `get_remaining_requests`. -/
theorem get_remaining_daily (st : RedisState) (lim : Limits) (u : String)
    (now : UtcTime) :
    (RedisRateLimiter.get_remaining_requests st lim u now).daily_remaining
      = max 0 (lim.daily -
        ((st.redisGet (daily_key u now.dateIso) now.epoch).getD 0 : Int))
      := by
  unfold RedisRateLimiter.get_remaining_requests
  rcases hgp : st.redisGet (daily_key u now.dateIso) now.epoch with _ | c
  · rfl
  · rfl

/-- C1 (spec-modelled orchestrator): when the quota check denies the
commanding user, `requestAnalysis` fails with `QuotaExceeded` and the
whole world — the analysis store in particular — is untouched: a lookup
for any identifier absent before the call is still absent after it. -/
theorem C1_quota_denied_no_record (w : World) (lim : Limits)
    (user_id child_id : Nat) (text : String)
    (gw : Except String AIRecommendation) (freshId : Nat) (now : UtcTime)
    (hq : RedisRateLimiter.check_limit w.redis lim (toString user_id) now
      = false) :
    requestAnalysis w lim user_id child_id text gw freshId now =
      (w, .error .quotaExceeded) ∧
    ∀ i, dbFind w.store i = none →
      dbFind (requestAnalysis w lim user_id child_id text gw freshId
        now).1.store i = none := by
  have h := requestAnalysis_eval_quota w lim user_id child_id text gw
    freshId now hq
  refine ⟨h, fun i hi => ?_⟩
  rw [h]
  exact hi

/-- Witness for C1: a user whose daily counter sits at the ceiling. -/
theorem C1_quota_denied_no_record_witness :
    requestAnalysis
      ⟨[], ⟨[("rate_limit:daily:7:2026-10-12", ⟨1, none⟩)]⟩⟩ ⟨1, 10⟩
      7 8 "0123456789" (.error "t") 5 ⟨"2026-10-12", "2026101210", 0⟩ =
      (⟨[], ⟨[("rate_limit:daily:7:2026-10-12", ⟨1, none⟩)]⟩⟩,
        .error .quotaExceeded) :=
  (C1_quota_denied_no_record
    ⟨[], ⟨[("rate_limit:daily:7:2026-10-12", ⟨1, none⟩)]⟩⟩ ⟨1, 10⟩
    7 8 "0123456789" (.error "t") 5 ⟨"2026-10-12", "2026101210", 0⟩
    (by rfl)).1

/-- C2 (spec-modelled orchestrator): when the gateway raises on every
attempt, `requestAnalysis` re-raises `AnalysisFailed` carrying the
underlying cause, and the record created for the request is persisted in
Failed status with a non-null error message — a store lookup by the
fresh identifier returns that Failed row; the usage counters are not
touched. -/
theorem C2_gateway_failure_persists_failed (w : World) (lim : Limits)
    (user_id child_id : Nat) (text cause : String) (freshId : Nat)
    (now : UtcTime)
    (hq : RedisRateLimiter.check_limit w.redis lim (toString user_id) now
      = true)
    (hv : SituationDescription.validate text = .ok text)
    (hfresh : dbFind w.store freshId = none) :
    (requestAnalysis w lim user_id child_id text (.error cause) freshId
      now).2 = .error (.analysisFailed cause) ∧
    (∃ row, dbFind (requestAnalysis w lim user_id child_id text
        (.error cause) freshId now).1.store freshId = some row ∧
      row.status = "failed" ∧ row.error_message = some cause) ∧
    (requestAnalysis w lim user_id child_id text (.error cause) freshId
      now).1.redis = w.redis := by
  have he := requestAnalysis_eval_gwerror w lim user_id child_id text
    cause freshId now hq hv
  rw [he]
  have h1 : dbFind (SqlAlchemyAnalysisRepository.save w.store
      (pendingOf user_id child_id text freshId now.epoch)) freshId =
      some (newRow (pendingOf user_id child_id text freshId now.epoch))
    := dbFind_save_new w.store _ hfresh
  have h2 := dbFind_save_existing _
    (processingOf user_id child_id text freshId now.epoch) _ h1
  have h3 := dbFind_save_existing _
    (failedOf user_id child_id text freshId now.epoch cause) _ h2
  exact ⟨rfl, ⟨_, h3, rfl, rfl⟩, rfl⟩

/-- Witness for C2: a fresh user against an empty store, gateway dead. -/
theorem C2_gateway_failure_persists_failed_witness :
    (requestAnalysis ⟨[], ⟨[]⟩⟩ ⟨10, 5⟩ 7 8 "0123456789"
      (.error "GatewayTimeout") 5 ⟨"2026-10-12", "2026101210", 0⟩).2 =
      .error (.analysisFailed "GatewayTimeout") ∧
    (∃ row, dbFind (requestAnalysis ⟨[], ⟨[]⟩⟩ ⟨10, 5⟩ 7 8 "0123456789"
        (.error "GatewayTimeout") 5
        ⟨"2026-10-12", "2026101210", 0⟩).1.store 5 = some row ∧
      row.status = "failed" ∧
      row.error_message = some "GatewayTimeout") ∧
    (requestAnalysis ⟨[], ⟨[]⟩⟩ ⟨10, 5⟩ 7 8 "0123456789"
      (.error "GatewayTimeout") 5
      ⟨"2026-10-12", "2026101210", 0⟩).1.redis = ⟨[]⟩ :=
  C2_gateway_failure_persists_failed ⟨[], ⟨[]⟩⟩ ⟨10, 5⟩ 7 8
    "0123456789" "GatewayTimeout" 5 ⟨"2026-10-12", "2026101210", 0⟩
    (by rfl) (by rfl) (by rfl)

/-- C3 (spec-modelled orchestrator): usage is charged exactly on the
successful terminal outcome — a call that returns a Completed record
leaves the user's daily remaining decreased by exactly 1, and any call
that raises leaves the counter store untouched. -/
theorem C3_usage_charged_iff_completed (w : World) (lim : Limits)
    (user_id child_id : Nat) (text : String)
    (gw : Except String AIRecommendation) (freshId : Nat) (now : UtcTime)
    (hdl : 0 < lim.daily) :
    (∀ a, (requestAnalysis w lim user_id child_id text gw freshId
        now).2 = .ok a →
      (RedisRateLimiter.get_remaining_requests
        (requestAnalysis w lim user_id child_id text gw freshId
          now).1.redis lim (toString user_id) now).daily_remaining =
      (RedisRateLimiter.get_remaining_requests w.redis lim
        (toString user_id) now).daily_remaining - 1) ∧
    (∀ e, (requestAnalysis w lim user_id child_id text gw freshId
        now).2 = .error e →
      (requestAnalysis w lim user_id child_id text gw freshId
        now).1.redis = w.redis) := by
  constructor
  · intro a h
    by_cases hq : RedisRateLimiter.check_limit w.redis lim
        (toString user_id) now = true
    · rcases hval : SituationDescription.validate text with m | v
      · rw [requestAnalysis_eval_invalid w lim user_id child_id text gw
          freshId now m hq hval] at h
        exact absurd h (by simp)
      · have hvt := validate_ok_eq text v hval
        rw [hvt] at hval
        cases gw with
        | error cause =>
          rw [requestAnalysis_eval_gwerror w lim user_id child_id text
            cause freshId now hq hval] at h
          exact absurd h (by simp)
        | ok rec =>
          have he := requestAnalysis_eval_gwok w lim user_id child_id
            text rec freshId now hq hval
          have hR : (requestAnalysis w lim user_id child_id text
              (.ok rec) freshId now).1.redis =
              RedisRateLimiter.increment_usage w.redis
                (toString user_id) now := by
            rw [he]
          have hu := check_true_daily_under w.redis lim
            (toString user_id) now hq hdl
          have hg := redisGet_after_increment_daily w.redis
            (toString user_id) now
          rw [hR, get_remaining_daily, get_remaining_daily, hg]
          simp only [Option.getD_some]
          rw [max_eq_right (by omega), max_eq_right (by omega)]
          push_cast
          omega
    · have hqf : RedisRateLimiter.check_limit w.redis lim
          (toString user_id) now = false := by
        revert hq
        cases RedisRateLimiter.check_limit w.redis lim (toString user_id)
          now <;> simp
      rw [requestAnalysis_eval_quota w lim user_id child_id text gw
        freshId now hqf] at h
      exact absurd h (by simp)
  · intro e h
    by_cases hq : RedisRateLimiter.check_limit w.redis lim
        (toString user_id) now = true
    · rcases hval : SituationDescription.validate text with m | v
      · rw [requestAnalysis_eval_invalid w lim user_id child_id text gw
          freshId now m hq hval]
      · have hvt := validate_ok_eq text v hval
        rw [hvt] at hval
        cases gw with
        | error cause =>
          rw [requestAnalysis_eval_gwerror w lim user_id child_id text
            cause freshId now hq hval]
        | ok rec =>
          rw [requestAnalysis_eval_gwok w lim user_id child_id text rec
            freshId now hq hval] at h
          exact absurd h (by simp)
    · have hqf : RedisRateLimiter.check_limit w.redis lim
          (toString user_id) now = false := by
        revert hq
        cases RedisRateLimiter.check_limit w.redis lim (toString user_id)
          now <;> simp
      rw [requestAnalysis_eval_quota w lim user_id child_id text gw
        freshId now hqf]

/-- Recommendation instantiating the C3 scenario. -/
def c3rec : AIRecommendation :=
  { hidden_meaning := "h", immediate_actions := "i"
    long_term_recommendations := "l", what_not_to_do := "w"
    confidence_score := 1 }

/-- Witness for C3: a fresh user, daily limit 10, one successful call —
daily remaining drops by exactly one. -/
theorem C3_usage_charged_iff_completed_witness :
    (RedisRateLimiter.get_remaining_requests
      (requestAnalysis ⟨[], ⟨[]⟩⟩ ⟨10, 5⟩ 7 8 "0123456789" (.ok c3rec)
        5 ⟨"2026-10-12", "2026101210", 0⟩).1.redis ⟨10, 5⟩ (toString 7)
      ⟨"2026-10-12", "2026101210", 0⟩).daily_remaining =
    (RedisRateLimiter.get_remaining_requests ⟨[]⟩ ⟨10, 5⟩ (toString 7)
      ⟨"2026-10-12", "2026101210", 0⟩).daily_remaining - 1 :=
  (C3_usage_charged_iff_completed ⟨[], ⟨[]⟩⟩ ⟨10, 5⟩ 7 8 "0123456789"
    (.ok c3rec) 5 ⟨"2026-10-12", "2026101210", 0⟩ (by decide)).1
    (completedOf 7 8 "0123456789" 5 0 c3rec) (by rfl)
